import Mathlib

/-!
Shallow embedding of the `PortaleAlloggiatiClient` reference implementation
found in `ALLOGGIAT_WEB_SOAP_API_DOCUMENTATION.md` (the Python client for the
Portale Alloggiati SOAP service), together with the `__main__`
authenticate / format / test / send flow.  Python strings are modelled as
Lean `String` (character lists), `elem.text` (which may be `None`) as
`Option String`, Python exceptions as `Option`/`Except`, and an XML document
— as consumed through `root.iter()` — as the list of its elements in
document order, each carrying its tag and text.
-/

namespace Alloggiati

/-- Python's substring test `needle in hay`, on character lists. -/
def listContainsAux (needle : List Char) : List Char → Bool
  | [] => needle.isPrefixOf []
  | c :: t => needle.isPrefixOf (c :: t) || listContainsAux needle t

/-- Python's substring test `needle in hay` on strings. -/
def strContains (hay needle : String) : Bool :=
  listContainsAux needle.data hay.data

/-- An XML element as yielded by `root.iter()`: its tag and its text
(`elem.text` is `None` when the element has no text). -/
structure Element where
  tag : String
  text : Option String
deriving DecidableEq, Repr

/-- Python truthiness of `elem.text`: `None` and the empty string are falsy. -/
def pyTruthy : Option String → Bool
  | none => false
  | some s => s ≠ ""

/-- Python `str(...)` applied to an optional string: `None` prints as "None"
inside an f-string. -/
def pyStr : Option String → String
  | none => "None"
  | some s => s

/-- Python `str.lower()`, character by character. -/
def pyLower (s : String) : String :=
  String.mk (s.data.map Char.toLower)

/-- Digit accumulator for `pyInt`: consumes decimal digits left to right,
failing on any non-digit. -/
def pyIntAux : Nat → List Char → Option Nat
  | acc, [] => some acc
  | acc, c :: rest =>
    if c.isDigit then pyIntAux (acc * 10 + (c.toNat - 48)) rest else none

/-- Python `int(elem.text)`: `None` raises `TypeError`; a string is stripped of
surrounding spaces and read as an optionally signed decimal numeral, raising
`ValueError` otherwise. -/
def pyInt (t : Option String) : Except String Int :=
  match t with
  | none => .error "TypeError"
  | some s =>
    let core := ((s.data.dropWhile (· = ' ')).reverse.dropWhile (· = ' ')).reverse
    match core with
    | [] => .error "ValueError"
    | '-' :: rest =>
      match rest, pyIntAux 0 rest with
      | _ :: _, some n => .ok (-(n : Int))
      | _, _ => .error "ValueError"
    | l =>
      match pyIntAux 0 l with
      | some n => .ok (n : Int)
      | none => .error "ValueError"

/-- Python `s.split(sep)` for a one-character separator, on character lists:
always returns at least one (possibly empty) piece. -/
def splitOnChar (sep : Char) : List Char → List (List Char)
  | [] => [[]]
  | x :: xs =>
    let r := splitOnChar sep xs
    if x = sep then [] :: r
    else
      match r with
      | [] => [[x]]
      | y :: ys => (x :: y) :: ys

/-- The inner helper of `format_schedina`:
`pad_string(value, length, char=' ') = str(value)[:length].ljust(length, char)` —
truncate to the field width, then pad on the right. -/
def pad_string (value : String) (length : Nat) (char : Char := ' ') : String :=
  let truncated := value.data.take length
  String.mk (truncated ++ List.replicate (length - truncated.length) char)

/-- The inner helper of `format_schedina`: if the date string contains a
hyphen it is split on hyphens and reassembled as `parts[2]/parts[1]/parts[0]`
(an `IndexError`, modelled as `none`, when there are fewer than three parts);
otherwise it is returned unchanged. -/
def format_date (date_str : String) : Option String :=
  if strContains date_str "-" then
    let parts := (splitOnChar '-' date_str.data).map String.mk
    if h : 2 < parts.length then
      some (parts.get ⟨2, h⟩ ++ "/" ++ parts.get ⟨1, by omega⟩ ++ "/"
            ++ parts.get ⟨0, by omega⟩)
    else
      none
  else
    some date_str

/-- The `guest_data` dictionary passed to `format_schedina`: each key is
present (`some`) or absent (`none`, in which case the `.get` default of the
source applies).  `Sesso` is stored already through `str(...)`, as the source
renders it. -/
structure GuestData where
  tipoAlloggiato : Option String := none
  dataArrivo : Option String := none
  giorniPermanenza : Option String := none
  cognome : Option String := none
  nome : Option String := none
  sesso : Option String := none
  dataNascita : Option String := none
  comuneNascita : Option String := none
  provinciaNascita : Option String := none
  statoNascita : Option String := none
  cittadinanza : Option String := none
  tipoDocumento : Option String := none
  numeroDocumento : Option String := none
  dataRilascio : Option String := none
  autoritaRilascio : Option String := none
  comuneResidenza : Option String := none
  provinciaResidenza : Option String := none
  statoResidenza : Option String := none
  indirizzoResidenza : Option String := none
  telefono : Option String := none
  email : Option String := none
deriving DecidableEq, Repr

/-- `PortaleAlloggiatiClient.format_schedina`: the concatenation, in source
order, of the padded/defaulted fields of `guest_data`.  `none` models the
Python exception raised by `format_date` on a malformed hyphenated date. -/
def format_schedina (g : GuestData) : Option String := do
  let dataArrivo ← format_date (g.dataArrivo.getD "2024-01-01")
  let dataNascita ← format_date (g.dataNascita.getD "1990-01-01")
  let dataRilascio ← format_date (g.dataRilascio.getD "2020-01-01")
  pure (pad_string (g.tipoAlloggiato.getD "01") 2
    ++ dataArrivo
    ++ pad_string (g.giorniPermanenza.getD "01") 2
    ++ pad_string (g.cognome.getD "") 50
    ++ pad_string (g.nome.getD "") 30
    ++ g.sesso.getD "1"
    ++ dataNascita
    ++ pad_string (g.comuneNascita.getD "") 9
    ++ pad_string (g.provinciaNascita.getD "") 2
    ++ pad_string (g.statoNascita.getD "IT") 9
    ++ pad_string (g.cittadinanza.getD "IT") 9
    ++ pad_string (g.tipoDocumento.getD "01") 2
    ++ pad_string (g.numeroDocumento.getD "") 20
    ++ dataRilascio
    ++ pad_string (g.autoritaRilascio.getD "") 40
    ++ pad_string (g.comuneResidenza.getD "") 9
    ++ pad_string (g.provinciaResidenza.getD "") 2
    ++ pad_string (g.statoResidenza.getD "IT") 9
    ++ pad_string (g.indirizzoResidenza.getD "") 50
    ++ pad_string (g.telefono.getD "") 15
    ++ pad_string (g.email.getD "") 50)

/-- The protocol constant stated throughout the documentation: "Data Format:
Fixed-length string records (168 characters)", repeated in the docstring of
`format_schedina` itself ("Format guest data as 168-character fixed-length
string"). -/
def RECORD_LENGTH : Nat := 168

/-- The mutable fields of `PortaleAlloggiatiClient` set in `__init__`:
credentials and the cached token (`self.token = None` initially). -/
structure ClientState where
  username : String
  password : String
  ws_key : String
  token : Option String := none
deriving DecidableEq, Repr

/-- The dictionary returned by `_parse_token_response`. -/
structure AuthResult where
  token : Option String
  success : Bool
deriving DecidableEq, Repr

/-- `PortaleAlloggiatiClient._parse_token_response`: scan the elements in
document order for the first whose tag contains `"token"`, cache its text in
`self.token` and report success; report failure (caching nothing) when no
such element exists.  The `issued` and `expires` elements of the response are
never consulted. -/
def parse_token_response (st : ClientState) (elems : List Element) :
    ClientState × AuthResult :=
  match elems.find? (fun e => strContains e.tag "token") with
  | some e => ({ st with token := e.text }, ⟨e.text, true⟩)
  | none => (st, ⟨none, false⟩)

/-- The dictionary built by `_parse_test_response`. -/
structure TestResult where
  esito : Bool
  schedine_valide : Int
  dettaglio : List String
deriving DecidableEq, Repr

/-- The dictionary built by `_parse_send_response`. -/
structure SendResult where
  esito : Bool
  schedine_acquisite : Int
  dettaglio : List String
deriving DecidableEq, Repr

/-- The `for elem in root.iter()` loop of `_parse_test_response`: a tag
containing `"SchedineValide"` overwrites the count with `int(elem.text)`
(whose exception aborts the parse), else a tag containing `"esito"` with
truthy text overwrites the flag with `elem.text.lower() == 'true'`. -/
def test_loop : TestResult → List Element → Except String TestResult
  | r, [] => .ok r
  | r, e :: rest =>
    if strContains e.tag "SchedineValide" then
      match pyInt e.text with
      | .ok n => test_loop { r with schedine_valide := n } rest
      | .error msg => .error msg
    else if strContains e.tag "esito" && pyTruthy e.text then
      test_loop { r with esito := pyLower (pyStr e.text) = "true" } rest
    else
      test_loop r rest

/-- `PortaleAlloggiatiClient._parse_test_response`: run the element loop from
the initial `{'esito': False, 'schedine_valide': 0, 'dettaglio': []}`. -/
def parse_test_response (elems : List Element) : Except String TestResult :=
  test_loop ⟨false, 0, []⟩ elems

/-- The `for elem in root.iter()` loop of `_parse_send_response` — identical
to the test loop except that the count field is named `schedine_acquisite`. -/
def send_loop : SendResult → List Element → Except String SendResult
  | r, [] => .ok r
  | r, e :: rest =>
    if strContains e.tag "SchedineValide" then
      match pyInt e.text with
      | .ok n => send_loop { r with schedine_acquisite := n } rest
      | .error msg => .error msg
    else if strContains e.tag "esito" && pyTruthy e.text then
      send_loop { r with esito := pyLower (pyStr e.text) = "true" } rest
    else
      send_loop r rest

/-- `PortaleAlloggiatiClient._parse_send_response`: run the element loop from
the initial `{'esito': False, 'schedine_acquisite': 0, 'dettaglio': []}`. -/
def parse_send_response (elems : List Element) : Except String SendResult :=
  send_loop ⟨false, 0, []⟩ elems

/-- The accumulation loop of `test_schedine`/`send_schedine`:
`schedine_xml += f"<all:string>{line}</all:string>"` — each line is
interpolated verbatim, with no escaping. -/
def schedine_xml (lines : List String) : String :=
  lines.foldl (fun acc line => acc ++ "<all:string>" ++ line ++ "</all:string>") ""

/-- The f-string request envelope of `test_schedine`, whitespace included:
`self.username`, `self.token` and the accumulated `schedine_xml` are
interpolated verbatim. -/
def test_envelope (st : ClientState) (lines : List String) : String :=
  "\n        <soap:Envelope xmlns:soap=\"http://schemas.xmlsoap.org/soap/envelope/\"\n                       xmlns:all=\"AlloggiatiService\">\n            <soap:Body>\n                <all:Test>\n                    <all:Utente>"
  ++ st.username
  ++ "</all:Utente>\n                    <all:token>"
  ++ pyStr st.token
  ++ "</all:token>\n                    <all:ElencoSchedine>\n                        "
  ++ schedine_xml lines
  ++ "\n                    </all:ElencoSchedine>\n                </all:Test>\n            </soap:Body>\n        </soap:Envelope>\n        "

/-- The f-string request envelope of `send_schedine` — identical to the test
envelope except for the operation element `all:Send`. -/
def send_envelope (st : ClientState) (lines : List String) : String :=
  "\n        <soap:Envelope xmlns:soap=\"http://schemas.xmlsoap.org/soap/envelope/\"\n                       xmlns:all=\"AlloggiatiService\">\n            <soap:Body>\n                <all:Send>\n                    <all:Utente>"
  ++ st.username
  ++ "</all:Utente>\n                    <all:token>"
  ++ pyStr st.token
  ++ "</all:token>\n                    <all:ElencoSchedine>\n                        "
  ++ schedine_xml lines
  ++ "\n                    </all:ElencoSchedine>\n                </all:Send>\n            </soap:Body>\n        </soap:Envelope>\n        "

/-- The network requests the client can issue, named after the SOAP
operations it posts. -/
inductive Call where
  | generateToken
  | test
  | send
deriving DecidableEq, Repr

/-- `PortaleAlloggiatiClient.authenticate`: build the GenerateToken envelope,
post it (one network call, issued unconditionally — nothing guards it on the
cached token), and parse the raw response. -/
def authenticate (st : ClientState) (respContent : List Element) :
    ClientState × AuthResult × List Call :=
  ((parse_token_response st respContent).1,
   (parse_token_response st respContent).2,
   [Call.generateToken])

/-- Sequential execution of a series of `authenticate` calls (the schedule in
which each caller's single post-and-parse step runs atomically in turn),
threading the client state and concatenating the network calls issued. -/
def run_authenticate_seq : ClientState → List (List Element) → ClientState × List Call
  | st, [] => (st, [])
  | st, r :: rest =>
    let step := authenticate st r
    let tail := run_authenticate_seq step.1 rest
    (tail.1, step.2.2 ++ tail.2)

/-- The raw response contents the environment returns for each operation the
`__main__` flow may post. -/
structure Responses where
  authContent : List Element
  testContent : List Element
  sendContent : List Element
deriving Repr

/-- The outcome of the Test call as the `__main__` flow reads it:
`test_result['esito']`, with a parse exception propagating (no send happens,
modelled as `false` for the purpose of the trace). -/
def testSucceeded (resp : Responses) : Bool :=
  match parse_test_response resp.testContent with
  | .ok t => t.esito
  | .error _ => false

/-- The `__main__` flow of the documentation, as the trace of network calls
it issues: authenticate (exit on failure), `format_schedina` (a date
exception aborts), `test_schedine`, and `send_schedine` only under
`if test_result['esito']:`. -/
def main_flow (st : ClientState) (g : GuestData) (resp : Responses) : List Call :=
  let auth := (parse_token_response st resp.authContent).2
  if !auth.success then [Call.generateToken]
  else
    match format_schedina g with
    | none => [Call.generateToken]
    | some _line =>
      match parse_test_response resp.testContent with
      | .error _ => [Call.generateToken, Call.test]
      | .ok t =>
        if t.esito then [Call.generateToken, Call.test, Call.send]
        else [Call.generateToken, Call.test]

/-- The `guest_data` dictionary of the documentation's usage example
(`__main__`), verbatim. -/
def example_guest : GuestData := {
  tipoAlloggiato := some "01", dataArrivo := some "2024-01-15",
  giorniPermanenza := some "03", cognome := some "Rossi", nome := some "Mario",
  sesso := some "1", dataNascita := some "1990-01-01", comuneNascita := some "H501",
  provinciaNascita := some "RM", statoNascita := some "IT", cittadinanza := some "IT",
  tipoDocumento := some "01", numeroDocumento := some "AB1234567",
  dataRilascio := some "2020-01-01", autoritaRilascio := some "Comune di Roma",
  comuneResidenza := some "H501", provinciaResidenza := some "RM",
  statoResidenza := some "IT", indirizzoResidenza := some "Via Milano 456",
  telefono := some "+393401234567", email := some "mario.rossi@email.com" }

/-- Modelled from the claim's words (C5): the standard XML escaping of the
markup-significant characters that the spec requires to be applied to a value
before its insertion into an envelope. -/
def spec_escape_xml (s : String) : String :=
  String.mk (s.data.foldr (fun c acc =>
    if c = '&' then "&amp;".data ++ acc
    else if c = '<' then "&lt;".data ++ acc
    else if c = '>' then "&gt;".data ++ acc
    else if c = '"' then "&quot;".data ++ acc
    else if c = '\'' then "&apos;".data ++ acc
    else c :: acc) [])

end Alloggiati

deriving instance DecidableEq for Except

namespace Alloggiati

/-- C1: for every batch, the `__main__` workflow posts the Send (submit)
operation only when the immediately preceding Test (validate) call reported
success — the trace then being exactly GenerateToken, Test, Send — and when
the Test outcome is a failure (or its response unparsable) zero Send calls
appear in the trace. -/
theorem C1_submit_only_after_validate_success (st : ClientState) (g : GuestData)
    (resp : Responses) :
    (Call.send ∈ main_flow st g resp →
      main_flow st g resp = [Call.generateToken, Call.test, Call.send] ∧
      testSucceeded resp = true) ∧
    (testSucceeded resp = false → Call.send ∉ main_flow st g resp) := by
  unfold main_flow testSucceeded
  cases hs : (parse_token_response st resp.authContent).2.success
  · simp [hs]
  · cases hf : format_schedina g
    · simp [hs, hf]
    · cases hp : parse_test_response resp.testContent
      · simp [hs, hf, hp]
      · rename_i t
        cases ht : t.esito <;> simp [hs, hf, hp, ht]

/-- Witness for C1 at a concrete failing Test response: no Send call is
made. -/
theorem C1_witness :
    testSucceeded ⟨[], [⟨"esito", some "false"⟩], []⟩ = false ∧
    Call.send ∉ main_flow ⟨"username", "password", "ws_key", none⟩ example_guest
      ⟨[], [⟨"esito", some "false"⟩], []⟩ :=
  ⟨by decide,
   (C1_submit_only_after_validate_success ⟨"username", "password", "ws_key", none⟩
      example_guest ⟨[], [⟨"esito", some "false"⟩], []⟩).2 (by decide)⟩

set_option maxRecDepth 40000 in
/-- C2: contrary to the claim (and to the docstring of `format_schedina`
itself, "Format guest data as 168-character fixed-length string"), the
encoder yields a 341-character string on the documentation's own usage
example, and not even a fixed length: a two-character Sesso value yields 342
characters.  `RECORD_LENGTH`, the documented protocol constant, is 168. -/
theorem C2_encoded_length_is_341_not_record_length :
    (format_schedina example_guest).map String.length = some 341 ∧
    (format_schedina { example_guest with sesso := some "12" }).map String.length
      = some 342 ∧
    RECORD_LENGTH = 168 := by
  refine ⟨by decide, by decide, rfl⟩

set_option maxRecDepth 40000 in
/-- C3 counterexample: a guest record with every field missing (so every
required field is absent) is encoded without any error — the Cognome field,
characters 14 to 63, is silently filled with 50 spaces — and the workflow
still makes the Test network call for the batch containing it. -/
theorem C3_counterexample :
    (format_schedina ({} : GuestData)).map
        (fun s => ((s.data.drop 14).take 50, s.length))
      = some (List.replicate 50 ' ', 341) ∧
    Call.test ∈ main_flow ⟨"username", "password", "ws_key", none⟩ ({} : GuestData)
      ⟨[⟨"token", some "tok"⟩], [⟨"esito", some "false"⟩], []⟩ := by
  refine ⟨by decide, by decide⟩

set_option maxRecDepth 40000 in
/-- C3 amended: `format_schedina` performs no required-field validation — a
record with every required field missing is still encoded, the empty values
silently space-padded (the Cognome field becomes 50 spaces), and whenever
authentication succeeds the workflow still issues the Test (validate)
network call for the batch containing that record. -/
theorem C3_amended (st : ClientState) (resp : Responses)
    (hauth : (parse_token_response st resp.authContent).2.success = true) :
    (format_schedina ({} : GuestData)).map
        (fun s => ((s.data.drop 14).take 50, s.length))
      = some (List.replicate 50 ' ', 341) ∧
    Call.test ∈ main_flow st ({} : GuestData) resp := by
  refine ⟨by decide, ?_⟩
  unfold main_flow
  simp only [hauth, Bool.not_true]
  cases hf : format_schedina ({} : GuestData)
  · exact absurd hf (by decide)
  · simp only [hf]
    cases hp : parse_test_response resp.testContent
    · simp
    · rename_i t
      cases ht : t.esito <;> simp [ht]

set_option maxRecDepth 40000 in
/-- Witness for C3 at a concrete successful authentication response. -/
theorem C3_witness :
    (parse_token_response ⟨"u", "p", "k", none⟩
        [⟨"token", some "tok"⟩]).2.success = true ∧
    Call.test ∈ main_flow ⟨"u", "p", "k", none⟩ ({} : GuestData)
      ⟨[⟨"token", some "tok"⟩], [⟨"esito", some "true"⟩], []⟩ :=
  ⟨by decide,
   (C3_amended ⟨"u", "p", "k", none⟩
      ⟨[⟨"token", some "tok"⟩], [⟨"esito", some "true"⟩], []⟩ (by decide)).2⟩

/-- C4 counterexample: the parseable date `15-01-2024` (day-month-year with
hyphens) is rendered as `2024/01/15` — year/month/day — and not as the
`15/01/2024` the claim requires. -/
theorem C4_counterexample :
    format_date "15-01-2024" = some "2024/01/15" ∧
    format_date "15-01-2024" ≠ some "15/01/2024" := by decide

/-- C4 amended: only a hyphen-separated date that splits into exactly three
parts is reassembled, blindly, as third/second/first — so the output is
`DD/MM/YYYY` exactly when the input was `YYYY-MM-DD` — and a date containing
no hyphen is passed through completely unchanged, whatever its format. -/
theorem C4_amended (s y m d : String)
    (hs : strContains s "-" = true)
    (hsplit : splitOnChar '-' s.data = [y.data, m.data, d.data]) :
    format_date s = some (d ++ "/" ++ m ++ "/" ++ y) ∧
    (∀ s2 : String, strContains s2 "-" = false → format_date s2 = some s2) := by
  constructor
  · simp [format_date, hs, hsplit]
  · intro s2 h2
    simp [format_date, h2]

/-- Witness for C4 at the ISO date `2024-01-15`. -/
theorem C4_witness :
    strContains "2024-01-15" "-" = true ∧
    splitOnChar '-' "2024-01-15".data = ["2024".data, "01".data, "15".data] ∧
    format_date "2024-01-15" = some "15/01/2024" :=
  ⟨by decide, by decide,
   (C4_amended "2024-01-15" "2024" "01" "15" (by decide) (by decide)).1⟩

/-- Helper: appending lines only ever extends the accumulator on the right. -/
theorem schedine_foldl_extend (lines : List String) :
    ∀ acc : String,
      ∃ c : String,
        lines.foldl (fun acc line => acc ++ "<all:string>" ++ line ++ "</all:string>") acc
          = acc ++ c := by
  induction lines with
  | nil => exact fun acc => ⟨"", by simp⟩
  | cons l rest ih =>
    intro acc
    obtain ⟨c, hc⟩ := ih (acc ++ "<all:string>" ++ l ++ "</all:string>")
    refine ⟨"<all:string>" ++ l ++ "</all:string>" ++ c, ?_⟩
    simp only [List.foldl_cons, hc]
    simp [String.append_assoc]

/-- Helper: every line of the batch appears verbatim in the accumulated
schedine block. -/
theorem schedine_foldl_mem :
    ∀ (lines : List String) (l : String), l ∈ lines →
      ∀ acc : String, ∃ a b : String,
        lines.foldl (fun acc line => acc ++ "<all:string>" ++ line ++ "</all:string>") acc
          = a ++ l ++ b := by
  intro lines
  induction lines with
  | nil => intro l hl; cases hl
  | cons x rest ih =>
    intro l hl acc
    cases hl with
    | head =>
      obtain ⟨c, hc⟩ :=
        schedine_foldl_extend rest (acc ++ "<all:string>" ++ x ++ "</all:string>")
      refine ⟨acc ++ "<all:string>", "</all:string>" ++ c, ?_⟩
      simp only [List.foldl_cons, hc]
      simp [String.append_assoc]
    | tail _ hmem => exact ih l hmem _

/-- Helper: the test envelope embeds the schedine block between two fixed
strings. -/
theorem test_envelope_decomp (st : ClientState) (lines : List String) :
    ∃ p q : String, test_envelope st lines = p ++ schedine_xml lines ++ q :=
  ⟨_, _, rfl⟩

/-- C5 counterexample: the line `a<b`, which contains a markup-significant
character, is interpolated into the schedine block verbatim — the built
fragment is not the escaped form the claim requires (under which `<` would
become `&lt;`). -/
theorem C5_counterexample :
    schedine_xml ["a<b"] = "<all:string>a<b</all:string>" ∧
    spec_escape_xml "a<b" = "a&lt;b" ∧
    schedine_xml ["a<b"] ≠ "<all:string>" ++ spec_escape_xml "a<b" ++ "</all:string>" := by
  refine ⟨by decide, by decide, by decide⟩

/-- C5 amended: no escaping whatsoever is applied — every line of the batch
appears verbatim (markup-significant characters included) inside the
accumulated schedine block and inside the full Test request envelope, so the
envelope is well-formed only for inputs containing no markup-significant
characters. -/
theorem C5_amended (st : ClientState) (lines : List String) (l : String)
    (hl : l ∈ lines) :
    (∃ a b : String, schedine_xml lines = a ++ l ++ b) ∧
    (∃ a b : String, test_envelope st lines = a ++ l ++ b) := by
  obtain ⟨a, b, hab⟩ := schedine_foldl_mem lines l hl ""
  have hsx : schedine_xml lines = a ++ l ++ b := hab
  obtain ⟨p, q, hpq⟩ := test_envelope_decomp st lines
  refine ⟨⟨a, b, hsx⟩, ⟨p ++ a, b ++ q, ?_⟩⟩
  rw [hpq, hsx]
  simp [String.append_assoc]

/-- Witness for C5 at the concrete batch containing `a<b`. -/
theorem C5_witness :
    "a<b" ∈ ["a<b"] ∧
    (∃ a b : String, schedine_xml ["a<b"] = a ++ "a<b" ++ b) :=
  ⟨by decide,
   (C5_amended ⟨"u", "p", "k", some "tok"⟩ ["a<b"] "a<b" (by decide)).1⟩

/-- Helper: one-step unfolding of the test-response element loop. -/
theorem test_loop_cons (r : TestResult) (e : Element) (rest : List Element) :
    test_loop r (e :: rest) =
      if strContains e.tag "SchedineValide" then
        match pyInt e.text with
        | .ok n => test_loop { r with schedine_valide := n } rest
        | .error msg => .error msg
      else if strContains e.tag "esito" && pyTruthy e.text then
        test_loop { r with esito := pyLower (pyStr e.text) = "true" } rest
      else test_loop r rest := rfl

/-- Helper: an element matching neither branch of the loop is skipped,
wherever it stands in the document. -/
theorem test_loop_skip (e : Element)
    (h1 : strContains e.tag "SchedineValide" = false)
    (h2 : (strContains e.tag "esito" && pyTruthy e.text) = false) :
    ∀ (pre : List Element) (r : TestResult) (post : List Element),
      test_loop r (pre ++ e :: post) = test_loop r (pre ++ post) := by
  intro pre
  induction pre with
  | nil =>
    intro r post
    show test_loop r (e :: post) = test_loop r post
    rw [test_loop_cons, h1, h2]
    simp
  | cons a pre ih =>
    intro r post
    show test_loop r (a :: (pre ++ e :: post)) = test_loop r (a :: (pre ++ post))
    rw [test_loop_cons, test_loop_cons]
    by_cases hA : strContains a.tag "SchedineValide" = true
    · rw [if_pos hA, if_pos hA]
      cases pyInt a.text
      · rfl
      · exact ih _ _
    · rw [if_neg hA, if_neg hA]
      by_cases hB : (strContains a.tag "esito" && pyTruthy a.text) = true
      · rw [if_pos hB, if_pos hB]
        exact ih _ _
      · rw [if_neg hB, if_neg hB]
        exact ih _ _

/-- C6 counterexample: a Test response reporting esito=false together with
ErroreCod `E01` and a description parses to exactly
`{esito := false, schedine_valide := 0, dettaglio := []}` — identical to the
parse of the same response stripped of the error elements, so the
service-supplied error code and description are not carried in the result at
all, contrary to the claim. -/
theorem C6_counterexample :
    parse_test_response
        [⟨"esito", some "false"⟩, ⟨"ErroreCod", some "E01"⟩,
         ⟨"ErroreDes", some "Errore"⟩]
      = .ok ⟨false, 0, []⟩ ∧
    parse_test_response
        [⟨"esito", some "false"⟩, ⟨"ErroreCod", some "E01"⟩,
         ⟨"ErroreDes", some "Errore"⟩]
      = parse_test_response [⟨"esito", some "false"⟩] := by
  refine ⟨by decide, by decide⟩

/-- C6 amended: when the Test response reports esito=false with error code
`E01`, the parsed result does carry success=false, but the error code and
description are discarded, not surfaced: the parser ignores ErroreCod and
ErroreDes elements wherever they stand, so the result holds only the esito
flag, the count, and an always-empty dettaglio list. -/
theorem C6_amended :
    parse_test_response
        [⟨"esito", some "false"⟩, ⟨"ErroreCod", some "E01"⟩,
         ⟨"ErroreDes", some "Errore"⟩]
      = .ok ⟨false, 0, []⟩ ∧
    ∀ (r : TestResult) (pre post : List Element) (tc td : Option String),
      test_loop r (pre ++ ⟨"ErroreCod", tc⟩ :: ⟨"ErroreDes", td⟩ :: post)
        = test_loop r (pre ++ post) := by
  constructor
  · decide
  · intro r pre post tc td
    have hc2 : (strContains (Element.mk "ErroreCod" tc).tag "esito"
        && pyTruthy (Element.mk "ErroreCod" tc).text) = false := by
      have : strContains "ErroreCod" "esito" = false := by decide
      simp [this]
    have hd2 : (strContains (Element.mk "ErroreDes" td).tag "esito"
        && pyTruthy (Element.mk "ErroreDes" td).text) = false := by
      have : strContains "ErroreDes" "esito" = false := by decide
      simp [this]
    calc test_loop r (pre ++ ⟨"ErroreCod", tc⟩ :: ⟨"ErroreDes", td⟩ :: post)
        = test_loop r ((pre ++ [⟨"ErroreCod", tc⟩]) ++ ⟨"ErroreDes", td⟩ :: post) := by
          simp
      _ = test_loop r ((pre ++ [⟨"ErroreCod", tc⟩]) ++ post) :=
          test_loop_skip ⟨"ErroreDes", td⟩
            (show strContains "ErroreDes" "SchedineValide" = false by decide)
            hd2 _ r post
      _ = test_loop r (pre ++ ⟨"ErroreCod", tc⟩ :: post) := by simp
      _ = test_loop r (pre ++ post) :=
          test_loop_skip ⟨"ErroreCod", tc⟩
            (show strContains "ErroreCod" "SchedineValide" = false by decide)
            hc2 pre r post

set_option maxRecDepth 40000 in
/-- C7 counterexample: the one-character numeric code `1` in a two-character
field is padded to `1 ` — left-justified with a trailing space — and not to
the `01` (right-justified, zero-padded) form the claim requires; the same
happens to the guest-type field inside a full encoded record. -/
theorem C7_counterexample :
    pad_string "1" 2 = "1 " ∧ "1 " ≠ "01" ∧
    (format_schedina { tipoAlloggiato := some "1" }).map (fun s => s.data.take 2)
      = some ['1', ' '] := by
  refine ⟨by decide, by decide, by decide⟩

/-- C7 amended: every padded field — numeric/code fields included — is
treated identically: the value is truncated to the field width and padded
with trailing spaces (left-justified), the result always having exactly the
field width; no field is zero-padded or right-justified. -/
theorem C7_amended (v : String) (n : Nat) :
    ((pad_string v n).data.length = n) ∧
    (v.data.length ≤ n →
      (pad_string v n).data = v.data ++ List.replicate (n - v.data.length) ' ') ∧
    (n ≤ v.data.length → (pad_string v n).data = v.data.take n) := by
  refine ⟨?_, ?_, ?_⟩
  · simp [pad_string]
  · intro h
    simp [pad_string, List.take_of_length_le h]
  · intro h
    simp only [pad_string, List.length_take]
    rw [Nat.min_eq_left h, Nat.sub_self]
    simp

/-- Witness for C7 at a short value (padded) and a long value (truncated). -/
theorem C7_witness :
    ("1".data.length ≤ 2 ∧
      (pad_string "1" 2).data = "1".data ++ List.replicate (2 - "1".data.length) ' ') ∧
    (2 ≤ "ABC".data.length ∧ (pad_string "ABC" 2).data = "ABC".data.take 2) :=
  ⟨⟨by decide, (C7_amended "1" 2).2.1 (by decide)⟩,
   ⟨by decide, (C7_amended "ABC" 2).2.2 (by decide)⟩⟩

/-- Helper: `find?` skips an element the predicate rejects, wherever it
stands. -/
theorem find?_skip {α : Type} (p : α → Bool) (x : α) (hx : p x = false) :
    ∀ pre post : List α,
      List.find? p (pre ++ x :: post) = List.find? p (pre ++ post) := by
  intro pre
  induction pre with
  | nil =>
    intro post
    simp [List.find?_cons, hx]
  | cons a pre ih =>
    intro post
    cases ha : p a <;> simp [List.find?_cons, ha, ih]

/-- Helper: the cached token is interpolated verbatim into the Test request
envelope. -/
theorem token_in_test_envelope (st : ClientState) (lines : List String)
    (tok : String) (hst : st.token = some tok) :
    ∃ p q : String, test_envelope st lines = p ++ tok ++ q := by
  refine ⟨"\n        <soap:Envelope xmlns:soap=\"http://schemas.xmlsoap.org/soap/envelope/\"\n                       xmlns:all=\"AlloggiatiService\">\n            <soap:Body>\n                <all:Test>\n                    <all:Utente>"
    ++ st.username ++ "</all:Utente>\n                    <all:token>",
    "</all:token>\n                    <all:ElencoSchedine>\n                        "
    ++ schedine_xml lines
    ++ "\n                    </all:ElencoSchedine>\n                </all:Test>\n            </soap:Body>\n        </soap:Envelope>\n        ", ?_⟩
  unfold test_envelope
  rw [hst]
  show _ ++ st.username ++ _ ++ pyStr (some tok) ++ _ ++ schedine_xml lines ++ _ = _
  simp [pyStr, String.append_assoc]

set_option maxRecDepth 100000 in
/-- C8 counterexample: token responses differing only in their `expires`
timestamp (one expiring in 2024, one long expired in 1999) parse to
identical client states — the expiry is not retained, so no expiry test at
any time T can behave as the claim demands — and the token cached from the
long-expired response is still interpolated into a subsequent Test request
envelope. -/
theorem C8_counterexample :
    parse_token_response ⟨"u", "p", "k", none⟩
        [⟨"issued", some "2024-01-15T10:30:00"⟩,
         ⟨"expires", some "2024-01-15T18:30:00"⟩, ⟨"token", some "tok123"⟩]
      = parse_token_response ⟨"u", "p", "k", none⟩
        [⟨"issued", some "2024-01-15T10:30:00"⟩,
         ⟨"expires", some "1999-01-01T00:00:00"⟩, ⟨"token", some "tok123"⟩] ∧
    (parse_token_response ⟨"u", "p", "k", none⟩
        [⟨"issued", some "2024-01-15T10:30:00"⟩,
         ⟨"expires", some "1999-01-01T00:00:00"⟩, ⟨"token", some "tok123"⟩]).1.token
      = some "tok123" ∧
    strContains
      (test_envelope (parse_token_response ⟨"u", "p", "k", none⟩
        [⟨"issued", some "2024-01-15T10:30:00"⟩,
         ⟨"expires", some "1999-01-01T00:00:00"⟩, ⟨"token", some "tok123"⟩]).1
        ["line1"])
      "tok123" = true := by
  refine ⟨by decide, by decide, by decide⟩

/-- C8 amended: the client tracks no expiry at all — parsing a token
response is insensitive to the text of the `expires` element, only the token
string is cached, and whatever token is cached is inserted verbatim into
every subsequent Test request unconditionally (no time or safety-margin
check exists anywhere in the client). -/
theorem C8_amended (st : ClientState) (pre post : List Element)
    (t1 t2 : Option String) (tok : String) (lines : List String)
    (hst : st.token = some tok) :
    parse_token_response st (pre ++ ⟨"expires", t1⟩ :: post)
      = parse_token_response st (pre ++ ⟨"expires", t2⟩ :: post) ∧
    (∃ p q : String, test_envelope st lines = p ++ tok ++ q) := by
  constructor
  · unfold parse_token_response
    rw [find?_skip _ ⟨"expires", t1⟩
          (show strContains "expires" "token" = false by decide) pre post,
        find?_skip _ ⟨"expires", t2⟩
          (show strContains "expires" "token" = false by decide) pre post]
  · exact token_in_test_envelope st lines tok hst

set_option maxRecDepth 40000 in
/-- Witness for C8 at a concrete client state holding a cached token. -/
theorem C8_witness :
    (⟨"u", "p", "k", some "tok123"⟩ : ClientState).token = some "tok123" ∧
    parse_token_response ⟨"u", "p", "k", some "tok123"⟩
        ([] ++ ⟨"expires", some "2024-01-15T18:30:00"⟩ :: [⟨"token", some "tok123"⟩])
      = parse_token_response ⟨"u", "p", "k", some "tok123"⟩
        ([] ++ ⟨"expires", some "1999-01-01T00:00:00"⟩ :: [⟨"token", some "tok123"⟩]) ∧
    (∃ p q : String,
      test_envelope ⟨"u", "p", "k", some "tok123"⟩ ["line1"] = p ++ "tok123" ++ q) :=
  ⟨by decide,
   (C8_amended ⟨"u", "p", "k", some "tok123"⟩ [] [⟨"token", some "tok123"⟩]
      (some "2024-01-15T18:30:00") (some "1999-01-01T00:00:00") "tok123" ["line1"]
      (by decide)).1,
   (C8_amended ⟨"u", "p", "k", some "tok123"⟩ [] [⟨"token", some "tok123"⟩]
      (some "2024-01-15T18:30:00") (some "1999-01-01T00:00:00") "tok123" ["line1"]
      (by decide)).2⟩

/-- C9 counterexample: two `authenticate` calls against an absent token —
executed in sequence, which is one legal schedule of two racing callers, and
the call being unconditional the count is the same under every schedule —
issue two GenerateToken network calls, not the single one the claim
requires. -/
theorem C9_counterexample :
    ((run_authenticate_seq ⟨"u", "p", "k", none⟩
        [[⟨"token", some "tok"⟩], [⟨"token", some "tok"⟩]]).2.count
      Call.generateToken = 2) ∧ (2 : Nat) ≠ 1 := by
  refine ⟨by decide, by decide⟩

/-- C9 amended: there is no caching check, lock, or single-flight
coordination — every `authenticate` call unconditionally issues its own
GenerateToken request, so N calls issue exactly N authentication calls,
whatever the client state. -/
theorem C9_amended (st : ClientState) (resps : List (List Element)) :
    (run_authenticate_seq st resps).2.count Call.generateToken = resps.length ∧
    (run_authenticate_seq st resps).2.length = resps.length := by
  induction resps generalizing st with
  | nil => simp [run_authenticate_seq]
  | cons r rest ih =>
    have h := ih (parse_token_response st r).1
    simp [run_authenticate_seq, authenticate, h.1, h.2, List.count_cons]

/-- Helper: one-step unfolding of the send-response element loop. -/
theorem send_loop_cons (r : SendResult) (e : Element) (rest : List Element) :
    send_loop r (e :: rest) =
      if strContains e.tag "SchedineValide" then
        match pyInt e.text with
        | .ok n => send_loop { r with schedine_acquisite := n } rest
        | .error msg => .error msg
      else if strContains e.tag "esito" && pyTruthy e.text then
        send_loop { r with esito := pyLower (pyStr e.text) = "true" } rest
      else send_loop r rest := rfl

/-- Helper: with no truthy esito element in the document, the test loop
leaves the esito flag at its initial value. -/
theorem test_loop_esito_inv :
    ∀ (elems : List Element) (r t : TestResult),
      (∀ e ∈ elems, (strContains e.tag "esito" && pyTruthy e.text) = false) →
      test_loop r elems = .ok t → t.esito = r.esito := by
  intro elems
  induction elems with
  | nil => intro r t _ hl; cases hl; rfl
  | cons e rest ih =>
    intro r t h hl
    have htail : ∀ x ∈ rest, (strContains x.tag "esito" && pyTruthy x.text) = false :=
      fun x hx => h x (List.mem_cons_of_mem _ hx)
    have hB := h e (List.mem_cons_self e rest)
    rw [test_loop_cons] at hl
    by_cases hA : strContains e.tag "SchedineValide" = true
    · rw [if_pos hA] at hl
      cases hpi : pyInt e.text with
      | ok n =>
        rw [hpi] at hl
        exact ih { r with schedine_valide := n } t htail hl
      | error m => rw [hpi] at hl; cases hl
    · rw [if_neg hA, if_neg (by rw [hB]; simp)] at hl
      exact ih r t htail hl

/-- Helper: with no SchedineValide element in the document, the test loop
leaves the count at its initial value. -/
theorem test_loop_count_inv :
    ∀ (elems : List Element) (r t : TestResult),
      (∀ e ∈ elems, strContains e.tag "SchedineValide" = false) →
      test_loop r elems = .ok t → t.schedine_valide = r.schedine_valide := by
  intro elems
  induction elems with
  | nil => intro r t _ hl; cases hl; rfl
  | cons e rest ih =>
    intro r t h hl
    have htail : ∀ x ∈ rest, strContains x.tag "SchedineValide" = false :=
      fun x hx => h x (List.mem_cons_of_mem _ hx)
    have hA := h e (List.mem_cons_self e rest)
    rw [test_loop_cons, if_neg (by rw [hA]; simp)] at hl
    by_cases hB : (strContains e.tag "esito" && pyTruthy e.text) = true
    · rw [if_pos hB] at hl
      exact ih { r with esito := pyLower (pyStr e.text) = "true" } t htail hl
    · rw [if_neg hB] at hl
      exact ih r t htail hl

/-- Helper: with no truthy esito element in the document, the send loop
leaves the esito flag at its initial value. -/
theorem send_loop_esito_inv :
    ∀ (elems : List Element) (r t : SendResult),
      (∀ e ∈ elems, (strContains e.tag "esito" && pyTruthy e.text) = false) →
      send_loop r elems = .ok t → t.esito = r.esito := by
  intro elems
  induction elems with
  | nil => intro r t _ hl; cases hl; rfl
  | cons e rest ih =>
    intro r t h hl
    have htail : ∀ x ∈ rest, (strContains x.tag "esito" && pyTruthy x.text) = false :=
      fun x hx => h x (List.mem_cons_of_mem _ hx)
    have hB := h e (List.mem_cons_self e rest)
    rw [send_loop_cons] at hl
    by_cases hA : strContains e.tag "SchedineValide" = true
    · rw [if_pos hA] at hl
      cases hpi : pyInt e.text with
      | ok n =>
        rw [hpi] at hl
        exact ih { r with schedine_acquisite := n } t htail hl
      | error m => rw [hpi] at hl; cases hl
    · rw [if_neg hA, if_neg (by rw [hB]; simp)] at hl
      exact ih r t htail hl

/-- Helper: with no SchedineValide element in the document, the send loop
leaves the count at its initial value. -/
theorem send_loop_count_inv :
    ∀ (elems : List Element) (r t : SendResult),
      (∀ e ∈ elems, strContains e.tag "SchedineValide" = false) →
      send_loop r elems = .ok t → t.schedine_acquisite = r.schedine_acquisite := by
  intro elems
  induction elems with
  | nil => intro r t _ hl; cases hl; rfl
  | cons e rest ih =>
    intro r t h hl
    have htail : ∀ x ∈ rest, strContains x.tag "SchedineValide" = false :=
      fun x hx => h x (List.mem_cons_of_mem _ hx)
    have hA := h e (List.mem_cons_self e rest)
    rw [send_loop_cons, if_neg (by rw [hA]; simp)] at hl
    by_cases hB : (strContains e.tag "esito" && pyTruthy e.text) = true
    · rw [if_pos hB] at hl
      exact ih { r with esito := pyLower (pyStr e.text) = "true" } t htail hl
    · rw [if_neg hB] at hl
      exact ih r t htail hl

/-- C10 counterexample: a Test response containing a SchedineValide element
but no esito element at all parses with esito=false but with an
accepted-record count of 5, not the 0 the claim requires. -/
theorem C10_counterexample :
    parse_test_response [⟨"SchedineValide", some "5"⟩] = .ok ⟨false, 5, []⟩ ∧
    (5 : Int) ≠ 0 := by
  refine ⟨by decide, by decide⟩

/-- C10 amended: outcome parsing does fail closed on the success flag — for
every Test or Send payload in which every esito-tagged element has absent or
empty text, any parsed result has esito=false, absence of an explicit
success indicator never being read as success — while the accepted-record
count is 0 exactly when, in addition, no SchedineValide element is present
(a SchedineValide element sets the count independently of esito). -/
theorem C10_amended (elems : List Element)
    (hesito : ∀ e ∈ elems, (strContains e.tag "esito" && pyTruthy e.text) = false) :
    (∀ t, parse_test_response elems = .ok t →
      t.esito = false ∧
      ((∀ e ∈ elems, strContains e.tag "SchedineValide" = false) →
        t.schedine_valide = 0)) ∧
    (∀ u, parse_send_response elems = .ok u →
      u.esito = false ∧
      ((∀ e ∈ elems, strContains e.tag "SchedineValide" = false) →
        u.schedine_acquisite = 0)) := by
  constructor
  · intro t ht
    exact ⟨test_loop_esito_inv elems _ t hesito ht,
           fun hsv => test_loop_count_inv elems _ t hsv ht⟩
  · intro u hu
    exact ⟨send_loop_esito_inv elems _ u hesito hu,
           fun hsv => send_loop_count_inv elems _ u hsv hu⟩

/-- Witness for C10 at a concrete payload with neither esito nor
SchedineValide elements. -/
theorem C10_witness :
    (⟨false, 0, []⟩ : TestResult).esito = false ∧
    (⟨false, 0, []⟩ : TestResult).schedine_valide = 0 := by
  have h := (C10_amended [⟨"Dettaglio", some "x"⟩] (by decide)).1
    ⟨false, 0, []⟩ (by decide)
  exact ⟨h.1, h.2 (by decide)⟩

end Alloggiati
